import Mathlib

/-!
Shallow embedding of the `tcs3200.sensor` class (file `tcs3200.py`) of the
colorsensor repository, together with proofs about its measurement state
machine, sampling loop, calibration conversion and configuration setters.

Conventions of the embedding:
* Python integers are `ℤ` (ticks, edge counts, sample sizes) or `ℕ` where the
  source can only hold non-negative values (the edge counter).
* Python `/` is true division (Python 3): results live in `ℚ`.
* A Python call that can raise an exception is embedded as an `Option`-valued
  function, `none` standing for the raised exception.
* The three colour channels are indexed by `Fin 3` in the storage order the
  source uses: 0 = Red, 1 = Green, 2 = Blue.
-/

namespace TCS3200

/-- The three gpio lines monitored by the callback `sensor._cbf`:
the pulse output line OUT and the two filter select lines S2, S3. -/
inductive Line where
  | OUT : Line
  | S2 : Line
  | S3 : Line
deriving DecidableEq, Repr

/-- The mutable fields of a `sensor` object that the modelled methods touch.
`Hertz`/`tally` are the published (reader visible) triplets, `workHertz` /
`workTally` the working values `_Hertz` / `_tally`. -/
structure State where
  Hertz : Fin 3 → ℚ
  workHertz : Fin 3 → ℚ
  tally : Fin 3 → ℤ
  workTally : Fin 3 → ℤ
  delay : Fin 3 → ℚ
  edge : ℕ
  start_tick : ℤ
  last_tick : ℤ
  period : ℚ
  samples : ℤ
  rgb_black : Fin 3 → ℚ
  rgb_white : Fin 3 → ℚ
  reading : Bool
  filterSel : Fin 4
  freqScale : Option (Fin 4)
  hasScalePins : Bool
deriving DecidableEq

/-- Embedding of `pigpio.tickDiff(t1, t2)`: microsecond difference of two 32-bit ticks,
wraparound corrected. -/
def tickDiff (t1 t2 : ℤ) : ℤ :=
  let d := t2 - t1
  if d < 0 then d + 2 ^ 32 else d

/-- The branch of `sensor._cbf` taken on a filter-select transition once the
completed channel index `colour` has been determined (lines 123-138 of
`tcs3200.py`): compute the working frequency and tally for that channel,
reset the edge counter, and when the completed channel is Green (index 1)
copy the working triplets into the published ones. -/
def finishColour (s : State) (colour : Fin 3) : State :=
  let s1 : State :=
    if s.edge > 1 then
      let e : ℕ := s.edge - 1
      let td : ℤ := tickDiff s.start_tick s.last_tick
      { s with
        workHertz := Function.update s.workHertz colour ((1000000 * (e : ℚ)) / (td : ℚ))
        workTally := Function.update s.workTally colour (e : ℤ)
        edge := 0 }
    else
      { s with
        workHertz := Function.update s.workHertz colour 0
        workTally := Function.update s.workTally colour 0
        edge := 0 }
  if colour = 1 then
    { s1 with Hertz := s1.workHertz, tally := s1.workTally }
  else s1

/-- Embedding of `sensor._cbf(g, l, t)`: the edge callback.  A rising edge on OUT records
the window start (first edge) or window end (later edges) and increments the
edge counter; an edge on S2/S3 is a filter transition: S2 low discards the
window (Clear to Red), S2 high completes Blue (index 2), S3 low completes
Green (index 1), S3 high completes Red (index 0). -/
def cbf (s : State) (g : Line) (l : ℕ) (t : ℤ) : State :=
  match g with
  | Line.OUT =>
      if s.edge = 0 then { s with start_tick := t, edge := s.edge + 1 }
      else { s with last_tick := t, edge := s.edge + 1 }
  | Line.S2 =>
      if l = 0 then { s with edge := 0 }
      else finishColour s 2
  | Line.S3 =>
      if l = 0 then finishColour s 1
      else finishColour s 0

/-- A base state used by concrete witnesses: the relevant initial values
`sensor.__init__` assigns (lines 69-89 of `tcs3200.py`). -/
def initState : State where
  Hertz := fun _ => 0
  workHertz := fun _ => 0
  tally := fun _ => 1
  workTally := fun _ => 1
  delay := fun _ => 1 / 10
  edge := 0
  start_tick := 0
  last_tick := 0
  period := 1 / 4
  samples := 50
  rgb_black := fun _ => 0
  rgb_white := fun _ => 10000
  reading := true
  filterSel := 3
  freqScale := some 1
  hasScalePins := true


/-- Projection of `finishColour` on the working frequency triplet: only the
completed channel's entry changes, to the computed frequency when more than
one edge was counted and to zero otherwise. -/
theorem finishColour_workHertz (s : State) (c : Fin 3) :
    (finishColour s c).workHertz =
      Function.update s.workHertz c
        (if 1 < s.edge then
          1000000 * (((s.edge - 1 : ℕ)) : ℚ) / ((tickDiff s.start_tick s.last_tick : ℤ) : ℚ)
         else 0) := by
  unfold finishColour
  by_cases h1 : s.edge > 1 <;> by_cases h2 : c = 1 <;> simp [h1, h2]

/-- Projection of `finishColour` on the working tally triplet. -/
theorem finishColour_workTally (s : State) (c : Fin 3) :
    (finishColour s c).workTally =
      Function.update s.workTally c
        (if 1 < s.edge then ((s.edge - 1 : ℕ) : ℤ) else 0) := by
  unfold finishColour
  by_cases h1 : s.edge > 1 <;> by_cases h2 : c = 1 <;> simp [h1, h2]

/-- Lemma: `finishColour` always resets the edge counter. -/
theorem finishColour_edge (s : State) (c : Fin 3) : (finishColour s c).edge = 0 := by
  unfold finishColour
  by_cases h1 : s.edge > 1 <;> by_cases h2 : c = 1 <;> simp [h1, h2]

/-- Lemma: `finishColour` publishes the working frequencies exactly when the
completed channel is Green (index 1); otherwise the published triplet is
untouched. -/
theorem finishColour_Hertz (s : State) (c : Fin 3) :
    (finishColour s c).Hertz =
      if c = 1 then (finishColour s c).workHertz else s.Hertz := by
  unfold finishColour
  by_cases h1 : s.edge > 1 <;> by_cases h2 : c = 1 <;> simp [h1, h2]

/-- C1: on a channel-completing filter-select transition (S2 high completes
Blue, S3 low completes Green, S3 high completes Red), if the edge counter n
exceeds 1 and the elapsed ticks are positive the stored frequency is
(n - 1) * 1000000 / elapsed, and if n <= 1 the stored frequency and tally
are both 0. -/
theorem C1_channel_frequency (s : State) (g : Line) (l : ℕ) (t : ℤ) (c : Fin 3)
    (hc : (g = Line.S2 ∧ l ≠ 0 ∧ c = 2) ∨ (g = Line.S3 ∧ l = 0 ∧ c = 1) ∨
          (g = Line.S3 ∧ l ≠ 0 ∧ c = 0)) :
    (1 < s.edge → 0 < tickDiff s.start_tick s.last_tick →
        (cbf s g l t).workHertz c =
          ((s.edge : ℚ) - 1) * 1000000 / ((tickDiff s.start_tick s.last_tick : ℤ) : ℚ)) ∧
    (s.edge ≤ 1 → (cbf s g l t).workHertz c = 0 ∧ (cbf s g l t).workTally c = 0) := by
  have hfin : ∀ c' : Fin 3,
      (1 < s.edge → 0 < tickDiff s.start_tick s.last_tick →
        (finishColour s c').workHertz c' =
          ((s.edge : ℚ) - 1) * 1000000 / ((tickDiff s.start_tick s.last_tick : ℤ) : ℚ)) ∧
      (s.edge ≤ 1 → (finishColour s c').workHertz c' = 0 ∧ (finishColour s c').workTally c' = 0) := by
    intro c'
    constructor
    · intro h1 _
      rw [finishColour_workHertz, Function.update_same, if_pos h1,
        Nat.cast_sub (le_of_lt h1)]
      push_cast
      ring
    · intro h1
      have h2 : ¬ (1 < s.edge) := not_lt.mpr h1
      rw [finishColour_workHertz, finishColour_workTally, Function.update_same,
        Function.update_same, if_neg h2, if_neg h2]
      exact ⟨rfl, rfl⟩
  rcases hc with ⟨hg, hl, hc⟩ | ⟨hg, hl, hc⟩ | ⟨hg, hl, hc⟩ <;> subst hg <;> subst hc
  · simp only [cbf, if_neg hl]
    exact hfin _
  · simp only [cbf, if_pos hl]
    exact hfin _
  · simp only [cbf, if_neg hl]
    exact hfin _

/-- Witness for C1 at n = 11 edges over 1000 microseconds: frequency 10000,
and at n = 1: frequency 0, tally 0. -/
theorem C1_channel_frequency_witness :
    (cbf { initState with edge := 11, start_tick := 0, last_tick := 1000 }
        Line.S3 1 5000).workHertz 0 = 10000 ∧
    (cbf { initState with edge := 1 } Line.S2 1 0).workHertz 2 = 0 ∧
    (cbf { initState with edge := 1 } Line.S2 1 0).workTally 2 = 0 := by
  refine ⟨?_, ?_, ?_⟩
  · have h := (C1_channel_frequency { initState with edge := 11, start_tick := 0, last_tick := 1000 }
      Line.S3 1 5000 0 (Or.inr (Or.inr ⟨rfl, one_ne_zero, rfl⟩))).1
      (by norm_num) (by norm_num [tickDiff])
    rw [h]
    norm_num [tickDiff]
  · exact ((C1_channel_frequency { initState with edge := 1 } Line.S2 1 0 2
      (Or.inl ⟨rfl, one_ne_zero, rfl⟩)).2 (by norm_num)).1
  · exact ((C1_channel_frequency { initState with edge := 1 } Line.S2 1 0 2
      (Or.inl ⟨rfl, one_ne_zero, rfl⟩)).2 (by norm_num)).2

/-- C3: the fixed lookup table on (select line, new level): S2 low is the
Clear-to-Red transition which only discards the in-progress window (the rest
of the state, in particular every stored frequency, is untouched); S2 high
completes Blue (index 2); S3 low completes Green (index 1); S3 high
completes Red (index 0); in the three completing cases only the completed
channel's working entries change, and in all four cases the edge counter is
reset to 0. -/
theorem C3_transition_table (s : State) (t : ℤ) (l : ℕ) (hl : l ≠ 0) :
    cbf s Line.S2 0 t = { s with edge := 0 } ∧
    cbf s Line.S2 l t = finishColour s 2 ∧
    cbf s Line.S3 0 t = finishColour s 1 ∧
    cbf s Line.S3 l t = finishColour s 0 ∧
    (∀ c : Fin 3, c ≠ 2 → (cbf s Line.S2 l t).workHertz c = s.workHertz c ∧
        (cbf s Line.S2 l t).workTally c = s.workTally c) ∧
    (∀ c : Fin 3, c ≠ 1 → (cbf s Line.S3 0 t).workHertz c = s.workHertz c ∧
        (cbf s Line.S3 0 t).workTally c = s.workTally c) ∧
    (∀ c : Fin 3, c ≠ 0 → (cbf s Line.S3 l t).workHertz c = s.workHertz c ∧
        (cbf s Line.S3 l t).workTally c = s.workTally c) ∧
    (cbf s Line.S2 0 t).edge = 0 ∧ (cbf s Line.S2 l t).edge = 0 ∧
    (cbf s Line.S3 0 t).edge = 0 ∧ (cbf s Line.S3 l t).edge = 0 := by
  have hS2 : cbf s Line.S2 l t = finishColour s 2 := by simp [cbf, hl]
  have hS3l : cbf s Line.S3 0 t = finishColour s 1 := by simp [cbf]
  have hS3h : cbf s Line.S3 l t = finishColour s 0 := by simp [cbf, hl]
  have huntouched : ∀ c' c : Fin 3, c ≠ c' →
      (finishColour s c').workHertz c = s.workHertz c ∧
      (finishColour s c').workTally c = s.workTally c := by
    intro c' c hne
    rw [finishColour_workHertz, finishColour_workTally,
      Function.update_noteq hne, Function.update_noteq hne]
    exact ⟨rfl, rfl⟩
  refine ⟨by simp [cbf], hS2, hS3l, hS3h, ?_, ?_, ?_, by simp [cbf], ?_, ?_, ?_⟩
  · intro c hc; rw [hS2]; exact huntouched 2 c hc
  · intro c hc; rw [hS3l]; exact huntouched 1 c hc
  · intro c hc; rw [hS3h]; exact huntouched 0 c hc
  · rw [hS2]; exact finishColour_edge s 2
  · rw [hS3l]; exact finishColour_edge s 1
  · rw [hS3h]; exact finishColour_edge s 0

/-- Witness for C3 at level 1 and the initial state. -/
theorem C3_transition_table_witness :
    cbf initState Line.S2 0 7 = { initState with edge := 0 } ∧
    (cbf initState Line.S3 1 7).edge = 0 :=
  ⟨(C3_transition_table initState 7 1 one_ne_zero).1,
   ((((((((C3_transition_table initState 7 1 one_ne_zero).2).2).2).2).2).2).2).2.2.2⟩

/-- C4 counterexample: with 11 rising edges counted over 1000 microseconds,
the tally stored for the completed channel (Red, via S3 high) is 10, not the
raw edge count 11. -/
theorem C4_counterexample :
    (cbf { initState with edge := 11, start_tick := 0, last_tick := 1000 }
        Line.S3 1 5000).workTally 0 = 10 ∧ (10 : ℤ) ≠ 11 := by
  constructor
  · norm_num [cbf, finishColour, tickDiff, initState, Function.update]
  · norm_num

/-- C4 amended: on a channel-completing transition with edge counter n > 1,
the stored tally is n - 1 (the number of full pulse periods), not the raw
edge count n. -/
theorem C4_tally_value (s : State) (g : Line) (l : ℕ) (t : ℤ) (c : Fin 3)
    (hc : (g = Line.S2 ∧ l ≠ 0 ∧ c = 2) ∨ (g = Line.S3 ∧ l = 0 ∧ c = 1) ∨
          (g = Line.S3 ∧ l ≠ 0 ∧ c = 0))
    (h1 : 1 < s.edge) :
    (cbf s g l t).workTally c = (s.edge : ℤ) - 1 := by
  have hfin : ∀ c' : Fin 3, (finishColour s c').workTally c' = (s.edge : ℤ) - 1 := by
    intro c'
    rw [finishColour_workTally, Function.update_same, if_pos h1,
      Nat.cast_sub (le_of_lt h1), Nat.cast_one]
  rcases hc with ⟨hg, hl, hc⟩ | ⟨hg, hl, hc⟩ | ⟨hg, hl, hc⟩ <;> subst hg <;> subst hc
  · simp only [cbf, if_neg hl]
    exact hfin _
  · simp only [cbf, if_pos hl]
    exact hfin _
  · simp only [cbf, if_neg hl]
    exact hfin _

/-- Witness for C4 amended at n = 11: the stored tally is 10. -/
theorem C4_tally_value_witness :
    (cbf { initState with edge := 11, start_tick := 0, last_tick := 1000 }
        Line.S3 1 5000).workTally 0 = (11 : ℤ) - 1 := by
  have h := C4_tally_value { initState with edge := 11, start_tick := 0, last_tick := 1000 }
    Line.S3 1 5000 0 (Or.inr (Or.inr ⟨rfl, one_ne_zero, rfl⟩)) (by norm_num)
  rw [h]
  norm_num

/-- Projection of `finishColour` on the published tally triplet: published
exactly on Green. -/
theorem finishColour_tally (s : State) (c : Fin 3) :
    (finishColour s c).tally =
      if c = 1 then (finishColour s c).workTally else s.tally := by
  unfold finishColour
  by_cases h1 : s.edge > 1 <;> by_cases h2 : c = 1 <;> simp [h1, h2]

/-- The reader-visible `Hertz` array after the first `k` iterations of the
publish loop `for i in range(3): self.Hertz[i] = self._Hertz[i]` (lines
136-138 of `tcs3200.py`).  Each iteration is one atomic store; the loop as a
whole is not guarded by any lock, so a concurrent reader can observe any of
these intermediate arrays. -/
def publishSteps (old new : Fin 3 → ℚ) : ℕ → (Fin 3 → ℚ)
  | 0 => old
  | k + 1 =>
    if h : k < 3 then
      Function.update (publishSteps old new k) ⟨k, h⟩ (new ⟨k, h⟩)
    else publishSteps old new k

/-- The previous published triplet and the working triplet in the
C2 counterexample: all six channel values distinct. -/
def oldTriplet : Fin 3 → ℚ := ![1, 2, 3]

/-- The new working triplet in the C2 counterexample. -/
def newTriplet : Fin 3 → ℚ := ![4, 5, 6]

/-- C2 counterexample: the publish loop is not atomic.  After its first
iteration the reader-visible array holds the new value on channel 0 and the
old values on channels 1 and 2, an array equal to neither the previous
complete triplet nor the new complete triplet: a reader interleaved there
observes a mix of channel values from different cycles. -/
theorem C2_counterexample :
    publishSteps oldTriplet newTriplet 0 = oldTriplet ∧
    publishSteps oldTriplet newTriplet 3 = newTriplet ∧
    publishSteps oldTriplet newTriplet 1 0 = newTriplet 0 ∧
    publishSteps oldTriplet newTriplet 1 1 = oldTriplet 1 ∧
    publishSteps oldTriplet newTriplet 1 ≠ oldTriplet ∧
    publishSteps oldTriplet newTriplet 1 ≠ newTriplet := by
  refine ⟨rfl, ?_, ?_, ?_, ?_, ?_⟩
  · funext c
    fin_cases c <;> norm_num [publishSteps, oldTriplet, newTriplet, Function.update, Fin.ext_iff]
  · norm_num [publishSteps, oldTriplet, newTriplet, Function.update]
  · norm_num [publishSteps, oldTriplet, newTriplet, Function.update]
  · intro h
    have h0 : publishSteps oldTriplet newTriplet 1 0 = oldTriplet 0 := by rw [h]
    rw [show publishSteps oldTriplet newTriplet 1 0 = 4 by
      norm_num [publishSteps, oldTriplet, newTriplet, Function.update]] at h0
    norm_num [oldTriplet] at h0
  · intro h
    have h1 : publishSteps oldTriplet newTriplet 1 1 = newTriplet 1 := by rw [h]
    rw [show publishSteps oldTriplet newTriplet 1 1 = 2 by
      norm_num [publishSteps, oldTriplet, newTriplet, Function.update]] at h1
    norm_num [newTriplet] at h1

/-- C2 amended: the working triplets are copied into the reader-visible ones
exactly when the completed channel is Green (the Green-to-Clear transition,
S3 low); on the other transitions the published triplets are untouched.  The
copy is an element-by-element loop: its completed run yields the new
triplet, but it is not atomic - between iterations a reader observes an
array mixing new and old channel values whenever the triplets differ. -/
theorem C2_publish_on_green (s : State) (g : Line) (l : ℕ) (t : ℤ) (c : Fin 3)
    (hc : (g = Line.S2 ∧ l ≠ 0 ∧ c = 2) ∨ (g = Line.S3 ∧ l = 0 ∧ c = 1) ∨
          (g = Line.S3 ∧ l ≠ 0 ∧ c = 0)) :
    ((cbf s g l t).Hertz =
        if c = 1 then (cbf s g l t).workHertz else s.Hertz) ∧
    ((cbf s g l t).tally =
        if c = 1 then (cbf s g l t).workTally else s.tally) ∧
    (∀ old new : Fin 3 → ℚ, publishSteps old new 0 = old ∧
        publishSteps old new 3 = new) ∧
    (∀ old new : Fin 3 → ℚ, old 0 ≠ new 0 → old 1 ≠ new 1 →
        publishSteps old new 1 ≠ old ∧ publishSteps old new 1 ≠ new) := by
  refine ⟨?_, ?_, ?_, ?_⟩
  · rcases hc with ⟨hg, hl, hc⟩ | ⟨hg, hl, hc⟩ | ⟨hg, hl, hc⟩ <;> subst hg <;> subst hc
    · simp only [cbf, if_neg hl]
      exact finishColour_Hertz s 2
    · simp only [cbf, if_pos hl]
      exact finishColour_Hertz s 1
    · simp only [cbf, if_neg hl]
      exact finishColour_Hertz s 0
  · rcases hc with ⟨hg, hl, hc⟩ | ⟨hg, hl, hc⟩ | ⟨hg, hl, hc⟩ <;> subst hg <;> subst hc
    · simp only [cbf, if_neg hl]
      exact finishColour_tally s 2
    · simp only [cbf, if_pos hl]
      exact finishColour_tally s 1
    · simp only [cbf, if_neg hl]
      exact finishColour_tally s 0
  · intro old new
    refine ⟨rfl, ?_⟩
    funext i
    fin_cases i <;> simp [publishSteps, Function.update, Fin.ext_iff]
  · intro old new h0 h1
    constructor
    · intro h
      apply h0
      have := congrFun h 0
      simpa [publishSteps, Function.update] using this.symm
    · intro h
      apply h1
      have := congrFun h 1
      simpa [publishSteps, Function.update] using this
  
/-- Witness for C2 amended: the Green-completing event at the initial state
publishes, and with concrete distinct triplets the mid-copy array differs
from both. -/
theorem C2_publish_on_green_witness :
    (cbf initState Line.S3 0 9).Hertz = (cbf initState Line.S3 0 9).workHertz ∧
    publishSteps oldTriplet newTriplet 1 ≠ oldTriplet := by
  have h := C2_publish_on_green initState Line.S3 0 9 1
    (Or.inr (Or.inl ⟨rfl, rfl, rfl⟩))
  refine ⟨?_, ?_⟩
  · have h1 := h.1
    rw [if_pos rfl] at h1
    exact h1
  · exact ((h.2.2.2 oldTriplet newTriplet (by norm_num [oldTriplet, newTriplet])
      (by norm_num [oldTriplet, newTriplet])).1)


/-- The clamp applied to a freshly computed dwell time (lines 176-180 of
`tcs3200.py`): values below 0.001 become 0.001, values above 0.5 become
0.5. -/
def clampDelay (dly : ℚ) : ℚ :=
  if dly < 1 / 1000 then 1 / 1000
  else if dly > 1 / 2 then 1 / 2
  else dly

/-- The dwell-tuning pass at the end of each sampling-loop iteration (lines
171-182 of `tcs3200.py`): for each channel with a non-zero published
frequency, the delay becomes the clamped quotient samples / frequency;
channels with zero frequency keep their previous delay. -/
def tuneDelays (s : State) : State :=
  { s with
    delay := fun c =>
      if s.Hertz c ≠ 0 then clampDelay ((s.samples : ℚ) / s.Hertz c)
      else s.delay c }

/-- C5: at the end of a sampling-loop iteration, a channel with non-zero
published frequency gets dwell time samples / frequency clamped into
[1/1000, 1/2] (and the stored value always lies in that interval), while a
channel with zero frequency keeps its previous dwell time. -/
theorem C5_dwell_tuning (s : State) (c : Fin 3) :
    (s.Hertz c ≠ 0 →
      (tuneDelays s).delay c = clampDelay ((s.samples : ℚ) / s.Hertz c) ∧
      1 / 1000 ≤ (tuneDelays s).delay c ∧ (tuneDelays s).delay c ≤ 1 / 2) ∧
    (s.Hertz c = 0 → (tuneDelays s).delay c = s.delay c) := by
  constructor
  · intro h
    have heq : (tuneDelays s).delay c = clampDelay ((s.samples : ℚ) / s.Hertz c) := by
      simp [tuneDelays, h]
    refine ⟨heq, ?_, ?_⟩ <;> rw [heq] <;> unfold clampDelay <;>
      split_ifs with h1 h2 <;> linarith
  · intro h
    simp [tuneDelays, h]

/-- Witness for C5: with published frequencies (10000, 0, 2) and sample
target 50, channel 0 gets 50/10000 = 1/200, channel 1 keeps its previous
delay 1/10, channel 2 is clamped up from 25 to 1/2. -/
theorem C5_dwell_tuning_witness :
    (tuneDelays { initState with Hertz := ![10000, 0, 2] }).delay 0 = 1 / 200 ∧
    (tuneDelays { initState with Hertz := ![10000, 0, 2] }).delay 1 = 1 / 10 ∧
    (tuneDelays { initState with Hertz := ![10000, 0, 2] }).delay 2 = 1 / 2 := by
  refine ⟨?_, ?_, ?_⟩
  · have h := ((C5_dwell_tuning { initState with Hertz := ![10000, 0, 2] } 0).1
      (by norm_num)).1
    rw [h]
    norm_num [clampDelay, initState]
  · have h := (C5_dwell_tuning { initState with Hertz := ![10000, 0, 2] } 1).2
      (by norm_num)
    rw [h]
    norm_num [initState]
  · have h := ((C5_dwell_tuning { initState with Hertz := ![10000, 0, 2] } 2).1
      (by norm_num)).1
    rw [h]
    norm_num [clampDelay, initState]

/-- The per-channel body of `sensor.get_rgb` (lines 216-224 of `tcs3200.py`)
for a channel whose calibration difference is non-zero: scale the offset
frequency and clamp the result into [0, top]. -/
def rgb_channel (hertz black white top : ℚ) : ℚ :=
  let v := hertz - black
  let sp := white - black
  let p := top * v / sp
  if p < 0 then 0
  else if p > top then top
  else p

/-- Embedding of `sensor.get_rgb(top)`: converts the published frequency triplet to RGB.
In Python the body divides by `white[c] - black[c]`; when that difference is
zero for some channel the call raises ZeroDivisionError, embedded here as
`none`. -/
def get_rgb (s : State) (top : ℚ) : Option (Fin 3 → ℚ) :=
  if ∀ c : Fin 3, s.rgb_white c - s.rgb_black c ≠ 0 then
    some fun c => rgb_channel (s.Hertz c) (s.rgb_black c) (s.rgb_white c) top
  else none

/-- A state with degenerate calibration (white = black = 100 on every
channel) and frequency 200. -/
def degenState : State :=
  { initState with
    Hertz := fun _ => 200
    rgb_black := fun _ => 100
    rgb_white := fun _ => 100 }

/-- C6 counterexample: with white = black = 100 and frequency 200 >= 100 the
claim demands the defined value `top` for that channel, but `get_rgb`
divides by zero and raises (returns `none`): the conversion does not produce
a value at all. -/
theorem C6_counterexample :
    degenState.rgb_white 0 = degenState.rgb_black 0 ∧
    degenState.Hertz 0 ≥ degenState.rgb_black 0 ∧
    get_rgb degenState 255 = none := by
  refine ⟨rfl, by norm_num [degenState, initState], ?_⟩
  rw [get_rgb, if_neg]
  intro h
  have := h 0
  norm_num [degenState, initState] at this

/-- C6 amended: whenever the calibration is degenerate on some channel
(white[c] = black[c]), `get_rgb` raises ZeroDivisionError (embedded:
returns `none`) instead of returning a triplet. -/
theorem C6_degenerate_calibration (s : State) (top : ℚ) (c : Fin 3)
    (h : s.rgb_white c = s.rgb_black c) :
    get_rgb s top = none := by
  rw [get_rgb, if_neg]
  intro hall
  exact hall c (by rw [h, sub_self])

/-- Witness for C6 amended at the degenerate state. -/
theorem C6_degenerate_calibration_witness :
    get_rgb degenState 255 = none :=
  C6_degenerate_calibration degenState 255 0 rfl

/-- A state whose conversion lands exactly halfway: black 0, white 2,
frequency 1, so the scaled value is 255 * 1 / 2. -/
def halfState : State :=
  { initState with
    Hertz := fun _ => 1
    rgb_black := fun _ => 0
    rgb_white := fun _ => 2 }

/-- C7 counterexample: with black 0, white 2, frequency 1 and ceiling 255,
`get_rgb` returns 255/2 on channel 0, a rational with denominator 2 - not an
integer - so the returned channel values are not integers in general. -/
theorem C7_counterexample :
    (get_rgb halfState 255).map (fun f => f 0) = some (255 / 2) ∧
    (255 / 2 : ℚ).den = 2 ∧ (255 / 2 : ℚ).den ≠ 1 := by
  refine ⟨?_, by norm_num, by norm_num⟩
  have hne : ∀ c : Fin 3, halfState.rgb_white c - halfState.rgb_black c ≠ 0 := by
    intro c
    norm_num [halfState, initState]
  rw [get_rgb, if_pos hne]
  simp only [Option.map]
  norm_num [rgb_channel, halfState, initState]

/-- Clamp bounds for the conversion of one channel: for any inputs and any
non-negative ceiling, the result lies in [0, top]. -/
theorem rgb_channel_mem (h b w top : ℚ) (htop : 0 ≤ top) :
    0 ≤ rgb_channel h b w top ∧ rgb_channel h b w top ≤ top := by
  simp only [rgb_channel]
  split_ifs with h1 h2 <;> constructor <;> linarith

/-- C7 amended: with white > black on every channel and a non-negative
ceiling, `get_rgb` returns a triplet (no fault); a channel reading equal to
white converts to the ceiling, equal to black converts to 0, and equal to
the midpoint converts to exactly half the ceiling (a rational value, not
necessarily an integer); every converted value lies in [0, ceiling]. -/
theorem C7_calibration_roundtrip (s : State) (top : ℚ)
    (hbw : ∀ c, s.rgb_black c < s.rgb_white c) (htop : 0 ≤ top) :
    get_rgb s top =
      some (fun c => rgb_channel (s.Hertz c) (s.rgb_black c) (s.rgb_white c) top) ∧
    (∀ c, rgb_channel (s.rgb_white c) (s.rgb_black c) (s.rgb_white c) top = top) ∧
    (∀ c, rgb_channel (s.rgb_black c) (s.rgb_black c) (s.rgb_white c) top = 0) ∧
    (∀ c, rgb_channel ((s.rgb_black c + s.rgb_white c) / 2) (s.rgb_black c)
        (s.rgb_white c) top = top / 2) ∧
    (∀ c, 0 ≤ rgb_channel (s.Hertz c) (s.rgb_black c) (s.rgb_white c) top ∧
          rgb_channel (s.Hertz c) (s.rgb_black c) (s.rgb_white c) top ≤ top) := by
  refine ⟨?_, ?_, ?_, ?_, fun c => rgb_channel_mem _ _ _ _ htop⟩
  · rw [get_rgb, if_pos]
    intro c
    exact ne_of_gt (sub_pos.mpr (hbw c))
  · intro c
    have hsp : s.rgb_white c - s.rgb_black c ≠ 0 := ne_of_gt (sub_pos.mpr (hbw c))
    simp only [rgb_channel]
    rw [mul_div_assoc, div_self hsp, mul_one,
      if_neg (not_lt.mpr htop), if_neg (lt_irrefl top)]
  · intro c
    simp only [rgb_channel, sub_self, mul_zero, zero_div]
    rw [if_neg (lt_irrefl 0), if_neg (not_lt.mpr htop)]
  · intro c
    have hsp : s.rgb_white c - s.rgb_black c ≠ 0 := ne_of_gt (sub_pos.mpr (hbw c))
    have hp : top * ((s.rgb_black c + s.rgb_white c) / 2 - s.rgb_black c) /
        (s.rgb_white c - s.rgb_black c) = top / 2 := by
      rw [show (s.rgb_black c + s.rgb_white c) / 2 - s.rgb_black c =
        (s.rgb_white c - s.rgb_black c) / 2 by ring]
      field_simp
      ring
    simp only [rgb_channel]
    rw [hp, if_neg (by linarith), if_neg (by intro h; linarith)]

/-- The calibration scenario of the spec: black 100, white 1100, frequency
600 (the midpoint), ceiling 255. -/
def cal7State : State :=
  { initState with
    Hertz := fun _ => 600
    rgb_black := fun _ => 100
    rgb_white := fun _ => 1100 }

/-- Witness for C7 amended at black 100, white 1100, ceiling 255: white
converts to 255, black to 0, the midpoint 600 to 255/2. -/
theorem C7_calibration_roundtrip_witness :
    get_rgb cal7State 255 =
      some (fun c => rgb_channel (cal7State.Hertz c) (cal7State.rgb_black c)
        (cal7State.rgb_white c) 255) ∧
    rgb_channel 1100 100 1100 255 = 255 ∧
    rgb_channel 100 100 1100 255 = 0 ∧
    rgb_channel 600 100 1100 255 = 255 / 2 := by
  have h := C7_calibration_roundtrip cal7State 255
    (fun c => by norm_num [cal7State, initState]) (by norm_num)
  refine ⟨h.1, ?_, ?_, ?_⟩
  · exact h.2.1 0
  · exact h.2.2.1 0
  · have hm := h.2.2.2.1 0
    rw [show ((cal7State.rgb_black 0 + cal7State.rgb_white 0) / 2 : ℚ) = 600 by
      norm_num [cal7State, initState]] at hm
    exact hm

/-- Embedding of `sensor.set_update_period(t)`: the period is replaced only when t lies
in [0.1, 2.0); otherwise the call changes nothing (lines 318-323 of
`tcs3200.py`). -/
def set_update_period (s : State) (t : ℚ) : State :=
  if 1 / 10 ≤ t ∧ t < 2 then { s with period := t } else s

/-- Embedding of `sensor.set_sample_size(samples)`: values outside [10, 1000] are
replaced by the default 50 before being stored (lines 325-330 of
`tcs3200.py`). -/
def set_sample_size (s : State) (n : ℤ) : State :=
  { s with samples := if n < 10 ∨ 1000 < n then 50 else n }

/-- C8: out-of-range configuration is handled without error: an update
period outside [1/10, 2) leaves the state unchanged, one inside is stored
as given; a sample target outside [10, 1000] is silently reset to 50, one
inside is stored as given.  (Both embedded methods are total functions: no
exception path exists.) -/
theorem C8_config_validation (s : State) (t : ℚ) (n : ℤ) :
    (¬ (1 / 10 ≤ t ∧ t < 2) → set_update_period s t = s) ∧
    (1 / 10 ≤ t → t < 2 → (set_update_period s t).period = t) ∧
    (n < 10 ∨ 1000 < n → (set_sample_size s n).samples = 50) ∧
    (10 ≤ n → n ≤ 1000 → (set_sample_size s n).samples = n) := by
  refine ⟨?_, ?_, ?_, ?_⟩
  · intro h
    rw [set_update_period, if_neg h]
  · intro h1 h2
    rw [set_update_period, if_pos ⟨h1, h2⟩]
  · intro h
    simp [set_sample_size, h]
  · intro h1 h2
    have h : ¬ (n < 10 ∨ 1000 < n) := by
      push_neg
      exact ⟨h1, h2⟩
    simp [set_sample_size, h]

/-- Witness for C8: period 5 is rejected (state unchanged), 1/2 accepted;
sample target 2000 resets to 50, 20 is kept. -/
theorem C8_config_validation_witness :
    set_update_period initState 5 = initState ∧
    (set_update_period initState (1 / 2)).period = 1 / 2 ∧
    (set_sample_size initState 2000).samples = 50 ∧
    (set_sample_size initState 20).samples = 20 :=
  ⟨(C8_config_validation initState 5 0).1 (by norm_num),
   (C8_config_validation initState (1 / 2) 0).2.1 (by norm_num) (by norm_num),
   (C8_config_validation initState 5 2000).2.2.1 (by norm_num),
   (C8_config_validation initState 5 20).2.2.2 (by norm_num) (by norm_num)⟩

/-- The (S2, S3) levels written by `sensor._set_filter(f)` for each filter
index: 0 Red, 1 Green, 2 Blue, 3 Clear (lines 275-284 of `tcs3200.py`). -/
def set_filter_levels : Fin 4 → ℕ × ℕ
  | 0 => (0, 0)
  | 1 => (1, 1)
  | 2 => (0, 1)
  | 3 => (1, 0)

/-- Embedding of `sensor._set_filter` on the modelled state: records the selected
filter. -/
def set_filter (s : State) (f : Fin 4) : State := { s with filterSel := f }

/-- Embedding of `sensor.set_frequency(f)`: with the scaling pins present the scale `f`
is stored; without them the stored scale is the unset marker (`None`). -/
def set_frequency (s : State) (f : Fin 4) : State :=
  if s.hasScalePins then { s with freqScale := some f }
  else { s with freqScale := none }

/-- Embedding of `sensor.pause()`: stop sampling. -/
def pause (s : State) : State := { s with reading := false }

/-- Embedding of `sensor.resume()`: restart sampling. -/
def resume (s : State) : State := { s with reading := true }

/-- Embedding of `sensor.get_Hertz()`: the latest published frequency triplet. -/
def get_Hertz (s : State) : Fin 3 → ℚ := s.Hertz

/-- Embedding of `sensor.set_black_level(rgb)`. -/
def set_black_level (s : State) (rgb : Fin 3 → ℚ) : State :=
  { s with rgb_black := rgb }

/-- Embedding of `sensor.set_white_level(rgb)`. -/
def set_white_level (s : State) (rgb : Fin 3 → ℚ) : State :=
  { s with rgb_white := rgb }

/-- Embedding of `sensor.cancel()`: the state-visible part of cancellation (lines
227-249 of `tcs3200.py`): frequency scaling off, filter back to Clear.  The
method sets no cancelled flag and installs no guard on later calls. -/
def cancel (s : State) : State := set_filter (set_frequency s 0) 3

/-- A Python method call embedded with an explicit error channel: the source
method body raises no exception on any input, so the embedded call is
always `some` of the updated state (`none` would model a raised
`InvalidState`). -/
def set_update_periodE (s : State) (t : ℚ) : Option State :=
  some (set_update_period s t)

/-- C9 counterexample: calling the mutating `set_update_period` after
`cancel` does not fail with an InvalidState condition: it returns normally
(`some`, never `none`) and still mutates the period, here from the initial
1/4 to 1/2. -/
theorem C9_counterexample :
    set_update_periodE (cancel initState) (1 / 2) =
      some (set_update_period (cancel initState) (1 / 2)) ∧
    (cancel initState).period = 1 / 4 ∧
    (set_update_period (cancel initState) (1 / 2)).period = 1 / 2 := by
  refine ⟨rfl, ?_, ?_⟩
  · norm_num [cancel, set_filter, set_frequency, initState]
  · norm_num [set_update_period, cancel, set_filter, set_frequency, initState]

/-- C9 amended: the source has no lifecycle guard at all: after `cancel()`
every operation behaves exactly as before cancellation - the mutating
setters still return normally and still mutate (none fails with an
InvalidState condition), pause/resume still toggle the sampling flag, and
reads still return the last published triplet. -/
theorem C9_no_lifecycle_guard (s : State) (t : ℚ) (n : ℤ) (rgb : Fin 3 → ℚ)
    (ht1 : 1 / 10 ≤ t) (ht2 : t < 2) (hn1 : 10 ≤ n) (hn2 : n ≤ 1000) :
    set_update_periodE (cancel s) t = some (set_update_period (cancel s) t) ∧
    (set_update_period (cancel s) t).period = t ∧
    (set_sample_size (cancel s) n).samples = n ∧
    (set_black_level (cancel s) rgb).rgb_black = rgb ∧
    (set_white_level (cancel s) rgb).rgb_white = rgb ∧
    pause (cancel s) = { cancel s with reading := false } ∧
    resume (cancel s) = { cancel s with reading := true } ∧
    get_Hertz (cancel s) = s.Hertz := by
  have hn : ¬ (n < 10 ∨ 1000 < n) := by
    push_neg
    exact ⟨hn1, hn2⟩
  have hH : (cancel s).Hertz = s.Hertz := by
    unfold cancel set_filter set_frequency
    by_cases hp : s.hasScalePins <;> simp [hp]
  refine ⟨rfl, ?_, ?_, rfl, rfl, rfl, rfl, hH⟩
  · rw [set_update_period, if_pos ⟨ht1, ht2⟩]
  · simp [set_sample_size, hn]

/-- Witness for C9 amended at the initial state with period 1/2, sample
target 20 and a constant calibration triplet. -/
theorem C9_no_lifecycle_guard_witness :
    (set_update_period (cancel initState) (1 / 2)).period = 1 / 2 ∧
    (set_sample_size (cancel initState) 20).samples = 20 ∧
    get_Hertz (cancel initState) = initState.Hertz := by
  have h := C9_no_lifecycle_guard initState (1 / 2) 20 (fun _ => 7)
    (by norm_num) (by norm_num) (by norm_num) (by norm_num)
  exact ⟨h.2.1, h.2.2.1, h.2.2.2.2.2.2.2⟩

/-- The filter order the sampling loop drives each cycle (lines 154-161 of
`tcs3200.py`): Red (0), Blue (2), Green (1), Clear (3), then Red again on
the next cycle. -/
def filterCycle : Fin 4 → Fin 4 := ![0, 2, 1, 3]

/-- How many of the two select lines differ between two (S2, S3) level
pairs. -/
def lineChanges (a b : ℕ × ℕ) : ℕ :=
  (if a.1 = b.1 then 0 else 1) + (if a.2 = b.2 then 0 else 1)

/-- C10: the filter encoding is Red (0,0), Blue (0,1), Green (1,1), Clear
(1,0), and along the sampling cycle Red, Blue, Green, Clear, Red each
consecutive pair of selections differs on exactly one select line, so each
transition produces exactly one select-line edge event. -/
theorem C10_filter_gray_code :
    set_filter_levels 0 = (0, 0) ∧ set_filter_levels 2 = (0, 1) ∧
    set_filter_levels 1 = (1, 1) ∧ set_filter_levels 3 = (1, 0) ∧
    (∀ i : Fin 4, lineChanges (set_filter_levels (filterCycle i))
        (set_filter_levels (filterCycle (i + 1))) = 1) := by
  decide
end TCS3200
